import Mathlib

/-
Shallow embedding of the phil cluster launcher (src/phil-core/src/launch.rs,
src/phil-core/src/error.rs, src/phil-core/src/cluster/mod.rs).

Modelling conventions:
* u16 / u8 counters are Nat with explicit wrap (% 65536, % 256) at each
  increment, matching release-mode Rust integer semantics.
* OS process handles (std::process::Child) are modelled as Nat process ids
  handed out by a counter in the launcher state; the external process
  substrate (monger) is modelled as always succeeding, since every claim
  under study quantifies over runs in which spawning succeeded.
* Admin-command loops (replSetInitiate / replSetReconfig, addShard) are
  embedded twice: at the cluster level they borrow the launcher immutably
  and do not change its state (exactly as in the Rust source, where
  configure_repl_set takes &self and the addShard loops touch no launcher
  field), so there they are modelled by their only state-relevant effect:
  the panic of the .next().unwrap() on an empty member iterator (None).
  The loops themselves are embedded separately as functions over a finite
  trace of responses (replSetConfigLoop, addShardLoop below).
* The f64 ok field of a command response is only ever compared for
  equality with 1.0 in the source, so it is embedded as an Int.
* The i32 cast of the member index (line 216) is modelled as Nat, which
  agrees with the source for every realizable registry size.
-/

namespace Phil

/-- TLS options from cluster/mod.rs (only the fields launch.rs reads). -/
structure TlsOptions where
  weak_tls : Bool
  ca_file_path : String
  server_cert_file_path : String
  deriving DecidableEq

/-- Credential from cluster/mod.rs plus the key_file added by the CLI. -/
structure Credential where
  username : String
  password : String
  key_file : String
  deriving DecidableEq

/-- Topology as matched by launch.rs initialize_cluster (lines 553-583). -/
inductive Topology where
  | single
  | replicaSet (set_name : String) (db_paths : List String)
  | sharded (num_mongos : Nat) (shard_db_paths : List (List String))
      (config_db_path : String)
  deriving DecidableEq

/-- MongodOptions, launch.rs lines 34-41. -/
structure MongodOptions where
  port : Nat
  db_path : Option String
  config_server : Bool
  shard_server : Bool
  repl_set_name : Option String
  deriving DecidableEq

/-- Node, launch.rs lines 28-32: spec plus the owned process handle. -/
structure Node where
  process : Nat
  options : MongodOptions
  deriving DecidableEq

/-- MongosOptions, launch.rs lines 49-54. -/
structure MongosOptions where
  port : Nat
  config_db_port : Nat
  config_db_name : String
  deriving DecidableEq

/-- Router, launch.rs lines 43-47. -/
structure Router where
  process : Nat
  options : MongosOptions
  deriving DecidableEq

/-- localhost_address rendered to a host string, launch.rs lines 21-26. -/
def localhostAddress (port : Nat) : String :=
  "localhost:" ++ toString port

/-- Argument vector built by start_mongod, launch.rs lines 118-174,
following the push/extend order of the source.  The final step models
the source exactly: extending by an empty slice equals appending it. -/
def mongodArgs (tls : Option TlsOptions) (credential : Option Credential)
    (deprecated_tls_options : Bool) (extra_mongod_args : List String)
    (options : MongodOptions) : List String :=
  let args : List String := ["--port", toString options.port]
  let args := match options.db_path with
    | some path => args ++ ["--dbpath", path]
    | none => args
  let args := match credential with
    | some credential => args ++ ["--auth", "--keyFile", credential.key_file]
    | none => args
  let args := match options.repl_set_name with
    | some set_name => args ++ ["--replSet", set_name]
    | none => args
  let args := if options.config_server then args ++ ["--configsvr"] else args
  let args := match tls with
    | some tls_options =>
      let args :=
        if deprecated_tls_options then
          args ++ ["--sslMode", "requireSSL",
                   "--sslCAFile", tls_options.ca_file_path,
                   "--sslPEMKeyFile", tls_options.server_cert_file_path]
        else
          args ++ ["--tlsMode", "requireTLS",
                   "--tlsCAFile", tls_options.ca_file_path,
                   "--tlsCertificateKeyFile", tls_options.server_cert_file_path]
      if tls_options.weak_tls then
        args ++ ["--tlsAllowConnectionsWithoutCertificates"]
      else args
    | none => args
  let args := if options.shard_server then args ++ ["--shardsvr"] else args
  args ++ extra_mongod_args

/-- Spawn and kill events recorded by the model so that claims about
which processes get started, terminated and respawned can be stated.
Node spawn events record the full argument vector the process was
started with; router spawn events record the credential in effect
(the full mongos argument vector depends on the external substrate's
default arguments and is not needed by any claim). -/
inductive Event where
  | spawnNode (pid : Nat) (options : MongodOptions) (args : List String)
  | spawnRouter (pid : Nat) (options : MongosOptions)
      (credential : Option Credential)
  | killNode (pid : Nat)
  | killRouter (pid : Nat)
  deriving DecidableEq

/-- Launcher state, launch.rs lines 56-70.  nextPid models the OS
handing out fresh process handles. -/
structure Launcher where
  topology : Topology
  tls : Option TlsOptions
  credential : Option Credential
  nodes : List Node
  routers : List Router
  next_port : Nat
  shard_count : Nat
  deprecated_tls_options : Bool
  extra_mongod_args : List String
  nextPid : Nat
  deriving DecidableEq

/-- Launcher::new, launch.rs lines 73-96. -/
def Launcher.new (topology : Topology) (tls : Option TlsOptions)
    (credential : Option Credential) (deprecated_tls_options : Bool)
    (extra_mongod_args : List String) : Launcher where
  topology := topology
  tls := tls
  credential := credential
  nodes := []
  routers := []
  next_port := 27017
  shard_count := 0
  deprecated_tls_options := deprecated_tls_options
  extra_mongod_args := extra_mongod_args
  nextPid := 0

/-- Launcher::next_port, launch.rs lines 98-101: returns the current
counter and increments it (u16 arithmetic, hence the wrap). -/
def Launcher.nextPort (s : Launcher) : Nat × Launcher :=
  (s.next_port, { s with next_port := (s.next_port + 1) % 65536 })

/-- Launcher::next_shard_id, launch.rs lines 103-106 (u8 counter). -/
def Launcher.nextShardId (s : Launcher) : Nat × Launcher :=
  (s.shard_count, { s with shard_count := (s.shard_count + 1) % 256 })

/-- Launcher::repl_set_addresses, launch.rs lines 108-116: the ports of
the registered nodes whose repl_set_name equals the target, in registry
order. -/
def Launcher.replSetAddresses (s : Launcher) (repl_set_name : String) :
    List Nat :=
  s.nodes.filterMap fun node =>
    if node.options.repl_set_name = some repl_set_name then
      some node.options.port
    else none

/-- Launcher::start_mongod, launch.rs lines 118-208: builds the argument
vector, asks the substrate to spawn, and returns the Node owning the
fresh process handle. -/
def Launcher.startMongod (s : Launcher) (options : MongodOptions) :
    Node × Launcher × List Event :=
  let args := mongodArgs s.tls s.credential s.deprecated_tls_options
      s.extra_mongod_args options
  let node : Node := { process := s.nextPid, options := options }
  (node, { s with nextPid := s.nextPid + 1 },
    [Event.spawnNode s.nextPid options args])

/-- Launcher::start_mongos, launch.rs lines 355-440. -/
def Launcher.startMongos (s : Launcher) (options : MongosOptions) :
    Router × Launcher × List Event :=
  let router : Router := { process := s.nextPid, options := options }
  (router, { s with nextPid := s.nextPid + 1 },
    [Event.spawnRouter s.nextPid options s.credential])

/-- One member document of the replica-set config, launch.rs lines 214-219
(the field written as an underscore-id in the bson document). -/
structure ReplSetMemberDoc where
  memberId : Nat
  host : String
  deriving DecidableEq

/-- The config document built by configure_repl_set, launch.rs lines 222-226. -/
structure ReplSetConfigDoc where
  setId : String
  configsvr : Bool
  members : List ReplSetMemberDoc
  deriving DecidableEq

/-- The member list and config document built at the top of
configure_repl_set, launch.rs lines 210-226. -/
def Launcher.replSetConfigDoc (s : Launcher) (set_name : String)
    (config_server : Bool) : ReplSetConfigDoc where
  setId := set_name
  configsvr := config_server
  members := (s.replSetAddresses set_name).enum.map fun p =>
    { memberId := p.1, host := localhostAddress p.2 }

/-- The state-relevant part of configure_repl_set, launch.rs lines 228-237:
the client connects to the first member produced by repl_set_addresses,
obtained by .next().unwrap() - which panics (None here) when no registered
node carries the set name.  On the happy path (responses eventually ok and
a primary elected) the function changes no launcher state, since it takes
the launcher by immutable borrow. -/
def Launcher.configureReplSet (s : Launcher) (set_name : String) :
    Option Nat :=
  (s.replSetAddresses set_name).head?

/-- CommandResponse, launch.rs lines 715-720.  The source compares the
f64 ok field only for equality with 1.0, so it is embedded as an Int. -/
structure CommandResponse where
  ok : Int
  codeName : Option String
  deriving DecidableEq

/-- One result of db.run_command: a transport error (Err in the source),
a document that fails to deserialize into CommandResponse, or a
well-formed response. -/
inductive RunResult where
  | transportErr
  | malformed
  | response (r : CommandResponse)
  deriving DecidableEq

/-- Which of replSetInitiate and replSetReconfig is currently in flight. -/
inductive ReplCmdKind where
  | initiate
  | reconfig
  deriving DecidableEq

/-- The in-flight command of the configure_repl_set loop: the kind plus
the member/config document it carries (the source rebuilds the command
from config.clone(), so the document part never changes). -/
structure ReplCmd where
  kind : ReplCmdKind
  config : ReplSetConfigDoc
  deriving DecidableEq

/-- Outcome of the configure_repl_set command loop over a finite trace of
responses.  The fatalConfigError constructor corresponds to the
Error::ReplicaSetConfigError variant of error.rs (lines 29-30); it is part
of the outcome type so that the specified behavior can be stated, and one
of the theorems below shows the loop as written never produces it. -/
inductive ConfigLoopOutcome where
  | success (finalCmd : ReplCmd)
  | decodeErr
  | exhausted (cmd : ReplCmd) (already_initialized : Bool)
  | fatalConfigError (response : CommandResponse)
  deriving DecidableEq

/-- The replSetInitiate / replSetReconfig retry loop, launch.rs lines
240-280, over a finite trace of run_command results.  Transport errors
sleep and retry; a malformed document aborts through the question-mark
operator at line 263; a well-formed response with ok equal to 1 breaks;
an AlreadyInitialized code name switches the in-flight command to
replSetReconfig (built from the same config document) once; any other
response simply lets the loop run again with the same command. -/
def replSetConfigLoop (cmd : ReplCmd) (already_initialized : Bool) :
    List RunResult → ConfigLoopOutcome
  | [] => ConfigLoopOutcome.exhausted cmd already_initialized
  | RunResult.transportErr :: rest => replSetConfigLoop cmd already_initialized rest
  | RunResult.malformed :: _ => ConfigLoopOutcome.decodeErr
  | RunResult.response r :: rest =>
    if r.ok = 1 then ConfigLoopOutcome.success cmd
    else
      match r.codeName with
      | some name =>
        if name = "AlreadyInitialized" then
          replSetConfigLoop
            (if ¬ already_initialized then { cmd with kind := ReplCmdKind.reconfig } else cmd)
            true rest
        else replSetConfigLoop cmd already_initialized rest
      | none => replSetConfigLoop cmd already_initialized rest

/-- Outcome of the addShard retry loops.  The fatalAddShardError
constructor corresponds to the Error::AddShardError variant of error.rs
(lines 8-9); it is part of the outcome type so that the specified
behavior can be stated, and one of the theorems below shows the loops as
written never produce it. -/
inductive ShardLoopOutcome where
  | success
  | decodeErr
  | exhausted
  | fatalAddShardError (response : CommandResponse)
  deriving DecidableEq

/-- The addShard retry loop shared by add_singleton_shard (launch.rs lines
473-490) and add_replset_shard (lines 525-542): transport errors sleep and
retry, a malformed document aborts through the question-mark operator, a
well-formed response with ok equal to 1 breaks, and any other well-formed
response lets the loop run again with the same command. -/
def addShardLoop : List RunResult → ShardLoopOutcome
  | [] => ShardLoopOutcome.exhausted
  | RunResult.transportErr :: rest => addShardLoop rest
  | RunResult.malformed :: _ => ShardLoopOutcome.decodeErr
  | RunResult.response r :: rest =>
    if r.ok = 1 then ShardLoopOutcome.success else addShardLoop rest

/-- The member-spawning loop of start_repl_set, launch.rs lines 319-331:
allocate a port, start a mongod with the set name and the role flags, and
push the node onto the registry. -/
def Launcher.spawnReplSetMembers (s : Launcher) (repl_set_name : String)
    (config_server shard_server : Bool) :
    List String → Launcher × List Event
  | [] => (s, [])
  | db_path :: rest =>
    let p := s.nextPort
    let options : MongodOptions :=
      { port := p.1, db_path := some db_path, config_server := config_server,
        shard_server := shard_server, repl_set_name := some repl_set_name }
    let r := p.2.startMongod options
    let s2 := { r.2.1 with nodes := r.2.1.nodes ++ [r.1] }
    let rec2 := s2.spawnReplSetMembers repl_set_name config_server shard_server rest
    (rec2.1, r.2.2 ++ rec2.2)

/-- Launcher::start_repl_set, launch.rs lines 307-336: spawn all members,
then configure the set (None models the panic inside configure_repl_set
when no registered node carries the set name). -/
def Launcher.startReplSet (s : Launcher) (repl_set_name : String)
    (config_server shard_server : Bool) (db_paths : List String) :
    Option (Launcher × List Event) :=
  let r := s.spawnReplSetMembers repl_set_name config_server shard_server db_paths
  match r.1.configureReplSet repl_set_name with
  | none => none
  | some _ => some r

/-- Launcher::add_config_db, launch.rs lines 338-353. -/
def Launcher.addConfigDB (s : Launcher) (port : Nat) (name : String)
    (db_path : String) : Option (Launcher × List Event) :=
  let options : MongodOptions :=
    { port := port, db_path := some db_path, config_server := true,
      shard_server := false, repl_set_name := some name }
  let r := s.startMongod options
  let s2 := { r.2.1 with nodes := r.2.1.nodes ++ [r.1] }
  match s2.configureReplSet name with
  | none => none
  | some _ => some (s2, r.2.2)

/-- Launcher::add_singleton_shard, launch.rs lines 442-493.  Note that the
Node returned by start_mongod at line 451 is dropped on the floor: it is
never pushed onto the node registry.  The addShard loop itself touches no
launcher state (see addShardLoop for its trace-level embedding). -/
def Launcher.addSingletonShard (s : Launcher) (port : Nat)
    (db_path : String) : Launcher × List Event :=
  let options : MongodOptions :=
    { port := port, db_path := some db_path, config_server := false,
      shard_server := true, repl_set_name := none }
  let r := s.startMongod options
  let p := r.2.1.nextShardId
  (p.2, r.2.2)

/-- Launcher::add_replset_shard, launch.rs lines 495-545: allocate a shard
id, derive the set name, and start the shard as a replica set.  The
addShard loop touches no launcher state. -/
def Launcher.addReplsetShard (s : Launcher) (db_paths : List String) :
    Option (Launcher × List Event) :=
  let p := s.nextShardId
  let name := "phil-replset-shard-" ++ toString p.1
  p.2.startReplSet name false true db_paths

/-- The mongos-port allocation of initialize_cluster line 584: num_mongos
successive next_port calls. -/
def Launcher.allocPorts (s : Launcher) : Nat → List Nat × Launcher
  | 0 => ([], s)
  | n + 1 =>
    let p := s.nextPort
    let r := p.2.allocPorts n
    (p.1 :: r.1, r.2)

/-- The router-spawning loop of initialize_cluster, lines 594-603. -/
def Launcher.spawnRouters (s : Launcher) (config_db_port : Nat)
    (config_db_name : String) : List Nat → Launcher × List Event
  | [] => (s, [])
  | port :: rest =>
    let options : MongosOptions :=
      { port := port, config_db_port := config_db_port,
        config_db_name := config_db_name }
    let r := s.startMongos options
    let s2 := { r.2.1 with routers := r.2.1.routers ++ [r.1] }
    let rec2 := s2.spawnRouters config_db_port config_db_name rest
    (rec2.1, r.2.2 ++ rec2.2)

/-- The shard loop of initialize_cluster, lines 607-627.  Both branches
index mongos_ports at zero, which panics (None) when no router was
requested; a one-element path set goes through add_singleton_shard after
allocating a port, anything else through add_replset_shard. -/
def Launcher.addShards (s : Launcher) (mongos_ports : List Nat) :
    List (List String) → Option (Launcher × List Event)
  | [] => some (s, [])
  | shard_db_path_set :: rest =>
    if mongos_ports.isEmpty then none
    else
      let step : Option (Launcher × List Event) :=
        if shard_db_path_set.length = 1 then
          let p := s.nextPort
          some (p.2.addSingletonShard p.1 shard_db_path_set.headI)
        else
          s.addReplsetShard shard_db_path_set
      match step with
      | none => none
      | some (s2, ev) =>
        match s2.addShards mongos_ports rest with
        | none => none
        | some (s3, ev2) => some (s3, ev ++ ev2)

/-- The node kill-and-respawn loop of the credential bootstrap,
launch.rs lines 654-671: kill the old process, wait for it, start a
mongod with the identical options, push the replacement. -/
def Launcher.restartNodes (s : Launcher) : List Node → Launcher × List Event
  | [] => (s, [])
  | node :: rest =>
    let r := s.startMongod node.options
    let s2 := { r.2.1 with nodes := r.2.1.nodes ++ [r.1] }
    let rec2 := s2.restartNodes rest
    (rec2.1, Event.killNode node.process :: r.2.2 ++ rec2.2)

/-- The router kill-and-respawn loop of the credential bootstrap,
launch.rs lines 679-696. -/
def Launcher.restartRouters (s : Launcher) : List Router → Launcher × List Event
  | [] => (s, [])
  | router :: rest =>
    let r := s.startMongos router.options
    let s2 := { r.2.1 with routers := r.2.1.routers ++ [r.1] }
    let rec2 := s2.restartRouters rest
    (rec2.1, Event.killRouter router.process :: r.2.2 ++ rec2.2)

/-- The credential bootstrap, launch.rs lines 633-697: put the credential
back into the launcher (line 634, so every respawn now includes the auth
flags), run createUser (stateless on the launcher), take the node registry
and kill/respawn each entry, then do the same for the routers. -/
def Launcher.bootstrapAuth (s : Launcher) (credential : Credential) :
    Launcher × List Event :=
  let s1 := { s with credential := some credential }
  let pre_auth_nodes := s1.nodes
  let s2 := { s1 with nodes := [] }
  let r := s2.restartNodes pre_auth_nodes
  let pre_auth_routers := r.1.routers
  let s4 := { r.1 with routers := [] }
  let r2 := s4.restartRouters pre_auth_routers
  (r2.1, r.2 ++ r2.2)

/-- The connection parameters of the returned handle (the fields of
ClientOptions that launch.rs sets; hosts are localhost ports). -/
structure ClientOptions where
  hosts : List Nat
  repl_set_name : Option String
  credential : Option Credential
  tls : Option TlsOptions
  deriving DecidableEq

/-- Cluster, cluster/mod.rs lines 32-41, as constructed by launch.rs lines
701-709: note that it holds the node registry but no router handles. -/
structure Cluster where
  client_options : ClientOptions
  topology : Topology
  tls : Option TlsOptions
  auth : Option Credential
  nodes : List Node
  deriving DecidableEq

/-- Cluster assembly plus the optional credential bootstrap, launch.rs
lines 633-711.  The hosts and replica-set name are whatever the
topology-specific branch computed before this point. -/
def Launcher.assemble (s : Launcher) (hosts : List Nat)
    (repl_set_name : Option String) (credential : Option Credential) :
    Cluster × Launcher × List Event :=
  match credential with
  | none =>
    ({ client_options :=
         { hosts := hosts, repl_set_name := repl_set_name,
           credential := none, tls := s.tls },
       topology := s.topology, tls := s.tls, auth := s.credential,
       nodes := s.nodes }, s, [])
  | some cred =>
    let r := s.bootstrapAuth cred
    ({ client_options :=
         { hosts := hosts, repl_set_name := repl_set_name,
           credential := some cred, tls := r.1.tls },
       topology := r.1.topology, tls := r.1.tls, auth := r.1.credential,
       nodes := r.1.nodes }, r.1, r.2)

/-- Launcher::initialize_cluster, launch.rs lines 547-712.  The credential
is taken out of the launcher up front (line 551), so the pre-bootstrap
spawns carry no auth flags; the topology branch computes the hosts and
registry; assemble then runs the optional bootstrap and packages the
Cluster.  None models a panic inside the run (the unwrap of line 230 or an
out-of-bounds mongos_ports index). -/
def Launcher.initCluster (s0 : Launcher) :
    Option (Cluster × Launcher × List Event) :=
  let credential := s0.credential
  let s := { s0 with credential := none }
  match s.topology with
  | Topology.single =>
    let options : MongodOptions :=
      { port := 27017, db_path := none, config_server := false,
        shard_server := false, repl_set_name := none }
    let r := s.startMongod options
    let s2 := { r.2.1 with nodes := r.2.1.nodes ++ [r.1] }
    let a := s2.assemble [27017] none credential
    some (a.1, a.2.1, r.2.2 ++ a.2.2)
  | Topology.replicaSet set_name db_paths =>
    match s.startReplSet set_name false false db_paths with
    | none => none
    | some (s1, ev) =>
      let hosts := (List.range db_paths.length).map
        fun i => (27017 + i % 65536) % 65536
      let a := s1.assemble hosts (some set_name) credential
      some (a.1, a.2.1, ev ++ a.2.2)
  | Topology.sharded num_mongos shard_db_paths config_db_path =>
    let p := s.allocPorts num_mongos
    let mongos_ports := p.1
    let q := p.2.nextPort
    let config_db_port := q.1
    let config_db_name := "phil-config-server"
    match q.2.addConfigDB config_db_port config_db_name config_db_path with
    | none => none
    | some (s3, ev1) =>
      let r := s3.spawnRouters config_db_port config_db_name mongos_ports
      match r.1.addShards mongos_ports shard_db_paths with
      | none => none
      | some (s5, ev3) =>
        let a := s5.assemble mongos_ports none credential
        some (a.1, a.2.1, ev1 ++ r.2 ++ ev3 ++ a.2.2)

/-- The pids of all spawn events in a log. -/
def spawnedPids (ev : List Event) : List Nat :=
  ev.filterMap fun e => match e with
    | Event.spawnNode pid _ _ => some pid
    | Event.spawnRouter pid _ _ => some pid
    | _ => none

/-- The pids of all kill events in a log. -/
def killedPids (ev : List Event) : List Nat :=
  ev.filterMap fun e => match e with
    | Event.killNode pid => some pid
    | Event.killRouter pid => some pid
    | _ => none

/-- The pids spawned during the run and never terminated: the processes
still running when the run ends. -/
def livePids (ev : List Event) : List Nat :=
  (spawnedPids ev).filter fun pid => pid ∉ killedPids ev

/-- The port counter value after a number of next_port calls. -/
def portAfter : Nat → Nat → Nat
  | p0, 0 => p0
  | p0, n + 1 => portAfter ((p0 + 1) % 65536) n

/-- The nodes created by the member-spawning loop of start_repl_set, as a
pure function of the starting port and pid counters. -/
def memberNodesFrom (repl_set_name : String)
    (config_server shard_server : Bool) :
    Nat → Nat → List String → List Node
  | _, _, [] => []
  | port0, pid0, db_path :: rest =>
    { process := pid0,
      options := { port := port0,
                   db_path := some db_path,
                   config_server := config_server,
                   shard_server := shard_server,
                   repl_set_name := some repl_set_name } } ::
      memberNodesFrom repl_set_name config_server shard_server
        ((port0 + 1) % 65536) (pid0 + 1) rest

/-- The spawn events for a list of freshly created nodes. -/
def spawnEventsOf (tls : Option TlsOptions) (credential : Option Credential)
    (dep : Bool) (extra : List String) (nodes : List Node) : List Event :=
  nodes.map fun nd =>
    Event.spawnNode nd.process nd.options
      (mongodArgs tls credential dep extra nd.options)

/-- The nodes after the kill-and-respawn cycle: same options, fresh pids. -/
def respawnedNodes : Nat → List Node → List Node
  | _, [] => []
  | pid0, nd :: rest =>
    { process := pid0, options := nd.options } :: respawnedNodes (pid0 + 1) rest

/-- The event log of the node kill-and-respawn cycle. -/
def restartNodeEvents (tls : Option TlsOptions) (credential : Option Credential)
    (dep : Bool) (extra : List String) : Nat → List Node → List Event
  | _, [] => []
  | pid0, nd :: rest =>
    Event.killNode nd.process ::
    Event.spawnNode pid0 nd.options (mongodArgs tls credential dep extra nd.options) ::
    restartNodeEvents tls credential dep extra (pid0 + 1) rest

/-- The routers after the kill-and-respawn cycle: same options, fresh pids. -/
def respawnedRouters : Nat → List Router → List Router
  | _, [] => []
  | pid0, r :: rest =>
    { process := pid0, options := r.options } :: respawnedRouters (pid0 + 1) rest

/-- The event log of the router kill-and-respawn cycle. -/
def restartRouterEvents (credential : Option Credential) :
    Nat → List Router → List Event
  | _, [] => []
  | pid0, r :: rest =>
    Event.killRouter r.process ::
    Event.spawnRouter pid0 r.options credential ::
    restartRouterEvents credential (pid0 + 1) rest

/-- The routers created by the router-spawning loop, as a pure function of
the starting pid counter. -/
def routersFrom (config_db_port : Nat) (config_db_name : String) :
    Nat → List Nat → List Router
  | _, [] => []
  | pid0, port :: rest =>
    { process := pid0,
      options := { port := port,
                   config_db_port := config_db_port,
                   config_db_name := config_db_name } } ::
      routersFrom config_db_port config_db_name (pid0 + 1) rest

/-- Total number of ports allocated while provisioning a shard list: one
for a singleton shard (whose path list has length 1), one per member for
a replica-set shard. -/
def shardPortCount (shard_db_paths : List (List String)) : Nat :=
  (shard_db_paths.map List.length).sum

/-- A sharded topology with one router and one single-directory shard,
plus a requested credential: the failing input showing that the
singleton-shard mongod is left out of the auth restart cycle. -/
def authShardedLauncher : Launcher :=
  Launcher.new (Topology.sharded 1 [["shard-dir"]] "config-dir") none
    (some { username := "phil", password := "ravi", key_file := "keyfile" })
    false []

/-- The event log of the run on the failing input for the restart cycle. -/
def authShardedEvents : List Event :=
  match authShardedLauncher.initCluster with
  | some r => r.2.2
  | none => []

/-- A sharded topology with one router and one single-directory shard and
no credential: the counterexample input for ownership transfer. -/
def noAuthShardedLauncher : Launcher :=
  Launcher.new (Topology.sharded 1 [["shard-dir"]] "config-dir") none none
    false []

/-- C1 counterexample: a trace whose first well-formed addShard response
has ok equal to 0.  The loop does not fail with an AddShardError carrying
that response; it retries the command and succeeds on the next response. -/
theorem addShardLoop_nonok_not_fatal :
    addShardLoop [RunResult.response { ok := 0, codeName := some "OperationFailed" },
        RunResult.response { ok := 1, codeName := none }] ≠
      ShardLoopOutcome.fatalAddShardError
        { ok := 0, codeName := some "OperationFailed" } ∧
    addShardLoop [RunResult.response { ok := 0, codeName := some "OperationFailed" },
        RunResult.response { ok := 1, codeName := none }] =
      ShardLoopOutcome.success := by
  decide

/-- C1 (amended): on a well-formed addShard response with ok not equal
to 1 the loop simply runs again with the same command, and no trace of
responses ever makes the loop return an AddShardError. -/
theorem addShardLoop_retries_and_never_errors :
    (∀ (r : CommandResponse) (rest : List RunResult), r.ok ≠ 1 →
      addShardLoop (RunResult.response r :: rest) = addShardLoop rest) ∧
    (∀ (trace : List RunResult) (resp : CommandResponse),
      addShardLoop trace ≠ ShardLoopOutcome.fatalAddShardError resp) := by
  constructor
  · intro r rest h
    simp [addShardLoop, h]
  · intro trace resp
    induction trace with
    | nil => simp [addShardLoop]
    | cons head rest ih =>
      cases head with
      | transportErr => simpa [addShardLoop] using ih
      | malformed => simp [addShardLoop]
      | response r => by_cases h : r.ok = 1 <;> simp [addShardLoop, h, ih]

/-- Witness for the amended C1 theorem at a concrete response. -/
theorem addShardLoop_retries_witness :
    CommandResponse.ok { ok := 0, codeName := none } ≠ 1 ∧
    addShardLoop [RunResult.response { ok := 0, codeName := none }] =
      addShardLoop [] :=
  ⟨by decide,
    addShardLoop_retries_and_never_errors.1 { ok := 0, codeName := none } []
      (by decide)⟩

/-- C2 counterexample: a replSetInitiate response with ok equal to 0 and
an error code name other than AlreadyInitialized.  The loop does not fail
with a ReplicaSetConfigError carrying that response; it retries the same
command and succeeds on the next response. -/
theorem replSetConfigLoop_nonok_not_fatal :
    replSetConfigLoop
        { kind := ReplCmdKind.initiate,
          config := { setId := "rs0", configsvr := false,
                       members := [{ memberId := 0, host := "localhost:27017" }] } }
        false
        [RunResult.response { ok := 0, codeName := some "InvalidReplicaSetConfig" },
         RunResult.response { ok := 1, codeName := none }] ≠
      ConfigLoopOutcome.fatalConfigError
        { ok := 0, codeName := some "InvalidReplicaSetConfig" } ∧
    replSetConfigLoop
        { kind := ReplCmdKind.initiate,
          config := { setId := "rs0", configsvr := false,
                       members := [{ memberId := 0, host := "localhost:27017" }] } }
        false
        [RunResult.response { ok := 0, codeName := some "InvalidReplicaSetConfig" },
         RunResult.response { ok := 1, codeName := none }] =
      ConfigLoopOutcome.success
        { kind := ReplCmdKind.initiate,
          config := { setId := "rs0", configsvr := false,
                       members := [{ memberId := 0, host := "localhost:27017" }] } } := by
  decide

/-- C2 (amended): on a well-formed response with ok not equal to 1 whose
code name is anything other than AlreadyInitialized, the configuration
loop runs again with the same in-flight command and the same flag, and no
trace of responses ever makes the loop return a ReplicaSetConfigError. -/
theorem replSetConfigLoop_retries_and_never_errors :
    (∀ (cmd : ReplCmd) (already_initialized : Bool) (r : CommandResponse)
        (rest : List RunResult), r.ok ≠ 1 →
      r.codeName ≠ some "AlreadyInitialized" →
      replSetConfigLoop cmd already_initialized (RunResult.response r :: rest) =
        replSetConfigLoop cmd already_initialized rest) ∧
    (∀ (cmd : ReplCmd) (already_initialized : Bool) (trace : List RunResult)
        (resp : CommandResponse),
      replSetConfigLoop cmd already_initialized trace ≠
        ConfigLoopOutcome.fatalConfigError resp) := by
  constructor
  · intro cmd already r rest hok hcode
    cases hname : r.codeName with
    | none => simp [replSetConfigLoop, hok, hname]
    | some name =>
      have : name ≠ "AlreadyInitialized" := by
        intro h
        exact hcode (by rw [hname, h])
      simp [replSetConfigLoop, hok, hname, this]
  · intro cmd already trace resp
    induction trace generalizing cmd already with
    | nil => simp [replSetConfigLoop]
    | cons head rest ih =>
      cases head with
      | transportErr => simpa [replSetConfigLoop] using ih cmd already
      | malformed => simp [replSetConfigLoop]
      | response r =>
        by_cases hok : r.ok = 1
        · simp [replSetConfigLoop, hok]
        · cases hname : r.codeName with
          | none => simpa [replSetConfigLoop, hok, hname] using ih cmd already
          | some name =>
            by_cases hn : name = "AlreadyInitialized"
            · simpa [replSetConfigLoop, hok, hname, hn] using
                ih (if ¬ already then { cmd with kind := ReplCmdKind.reconfig } else cmd) true
            · simpa [replSetConfigLoop, hok, hname, hn] using ih cmd already

/-- Witness for the amended C2 theorem at a concrete command and response. -/
theorem replSetConfigLoop_retries_witness :
    CommandResponse.ok { ok := 0, codeName := some "NodeNotFound" } ≠ 1 ∧
    CommandResponse.codeName { ok := 0, codeName := some "NodeNotFound" } ≠
      some "AlreadyInitialized" ∧
    replSetConfigLoop
        { kind := ReplCmdKind.initiate,
          config := { setId := "rs1", configsvr := false, members := [] } } false
        [RunResult.response { ok := 0, codeName := some "NodeNotFound" }] =
      replSetConfigLoop
        { kind := ReplCmdKind.initiate,
          config := { setId := "rs1", configsvr := false, members := [] } } false [] :=
  ⟨by decide, by decide,
    replSetConfigLoop_retries_and_never_errors.1
      { kind := ReplCmdKind.initiate,
        config := { setId := "rs1", configsvr := false, members := [] } } false
      { ok := 0, codeName := some "NodeNotFound" } [] (by decide) (by decide)⟩

/-- C6: a response carrying the AlreadyInitialized code name makes the
loop switch the in-flight command from replSetInitiate to replSetReconfig
with the same config document and retry, so that a later ok response ends
the loop in success: an idempotent re-run of the configuration against an
already-initialized set takes the reconfig path and does not error. -/
theorem replSetConfigLoop_already_initialized_reconfigs :
    ∀ (config : ReplSetConfigDoc) (r : CommandResponse), r.ok ≠ 1 →
      r.codeName = some "AlreadyInitialized" →
      (∀ rest : List RunResult,
        replSetConfigLoop { kind := ReplCmdKind.initiate, config := config } false
            (RunResult.response r :: rest) =
          replSetConfigLoop { kind := ReplCmdKind.reconfig, config := config } true rest) ∧
      (∀ r2 : CommandResponse, r2.ok = 1 →
        replSetConfigLoop { kind := ReplCmdKind.initiate, config := config } false
            [RunResult.response r, RunResult.response r2] =
          ConfigLoopOutcome.success
            { kind := ReplCmdKind.reconfig, config := config }) := by
  intro config r hok hcode
  constructor
  · intro rest
    simp [replSetConfigLoop, hok, hcode]
  · intro r2 h2
    simp [replSetConfigLoop, hok, hcode, h2]

/-- List-level fact behind repl_set_addresses: the filterMap of launch.rs
lines 108-116 equals the registry filtered on the set name, projected to
ports. -/
theorem replSetAddresses_eq_filter (s : Launcher) (set_name : String) :
    s.replSetAddresses set_name =
      (s.nodes.filter fun nd => nd.options.repl_set_name = some set_name).map
        fun nd => nd.options.port := by
  unfold Launcher.replSetAddresses
  induction s.nodes with
  | nil => rfl
  | cons head tail ih =>
    by_cases h : head.options.repl_set_name = some set_name <;>
      simp [List.filterMap_cons, List.filter_cons, h, ih]

/-- C7: every member list placed into a replSetInitiate or replSetReconfig
command document is obtained by filtering the node registry for nodes
whose repl_set_name equals the target set name, in registry insertion
order, with member ids assigned as consecutive indices in that order. -/
theorem replSetConfigDoc_members_from_registry (s : Launcher)
    (set_name : String) (config_server : Bool) :
    (s.replSetConfigDoc set_name config_server).members =
      ((s.nodes.filter fun nd =>
          nd.options.repl_set_name = some set_name).enum.map
        fun p =>
          { memberId := p.1, host := localhostAddress p.2.options.port }) ∧
    (s.replSetConfigDoc set_name config_server).members.map
        (fun m => m.memberId) =
      List.range (s.replSetConfigDoc set_name config_server).members.length := by
  constructor
  · show ((s.replSetAddresses set_name).enum.map _) = _
    rw [replSetAddresses_eq_filter, List.enum_map, List.map_map]
    rfl
  · show (((s.replSetAddresses set_name).enum.map _).map _) = _
    rw [List.map_map]
    show ((s.replSetAddresses set_name).enum.map Prod.fst) = _
    rw [List.enum_map_fst]
    simp [Launcher.replSetConfigDoc]

/-- C10: the unwrap at launch.rs line 230 panics (None here) exactly when
no registered node carries the target set name, rather than returning an
error value; in particular a ReplicaSet topology whose data-directory
list is empty spawns no member node and the whole run dies inside
configure_repl_set. -/
theorem configureReplSet_panics_iff_no_member :
    (∀ (s : Launcher) (set_name : String),
      s.configureReplSet set_name = none ↔
        ∀ node ∈ s.nodes, node.options.repl_set_name ≠ some set_name) ∧
    (∀ (set_name : String) (tls : Option TlsOptions)
        (credential : Option Credential) (dep : Bool) (extra : List String),
      (Launcher.new (Topology.replicaSet set_name []) tls credential dep
        extra).initCluster = none) := by
  constructor
  · intro s set_name
    unfold Launcher.configureReplSet
    rw [List.head?_eq_none_iff]
    unfold Launcher.replSetAddresses
    rw [List.filterMap_eq_nil_iff]
    constructor
    · intro h node hn hmem
      have h2 := h node hn
      rw [if_pos hmem] at h2
      exact Option.some_ne_none _ h2
    · intro h node hn
      rw [if_neg (h node hn)]
  · intro set_name tls credential dep extra
    rfl

/-- Witness for the C10 theorem: a launcher with an empty registry has no
node carrying any set name, so configureReplSet is the panic value. -/
theorem configureReplSet_panics_witness :
    (Launcher.new Topology.single none none false []).configureReplSet
      "test-repl-set" = none :=
  (configureReplSet_panics_iff_no_member.1
      (Launcher.new Topology.single none none false []) "test-repl-set").mpr
    (by intro node hn; exact absurd hn (List.not_mem_nil node))

/-- C9: the argument vector built by start_mongod appends the
caller-supplied extra flags last, and the part before them is exactly the
concatenation of: the mandatory port pair; the dbpath pair iff a data
directory is present; the auth and keyFile flags iff a credential is
configured; the replSet pair iff a set name is present; the configsvr
flag iff the node is a config server; the TLS block iff TLS is configured
(mode flag, CA-file flag and certificate-file flag, in the deprecated or
current spelling, plus the certificate-less-clients flag in weak mode);
and the shardsvr flag iff the node is a shard server. -/
theorem mongodArgs_flag_characterization (tls : Option TlsOptions)
    (credential : Option Credential) (dep : Bool) (extra : List String)
    (options : MongodOptions) :
    mongodArgs tls credential dep extra options =
      mongodArgs tls credential dep [] options ++ extra ∧
    mongodArgs tls credential dep [] options =
      ["--port", toString options.port]
      ++ (match options.db_path with
          | some path => ["--dbpath", path]
          | none => [])
      ++ (match credential with
          | some c => ["--auth", "--keyFile", c.key_file]
          | none => [])
      ++ (match options.repl_set_name with
          | some set_name => ["--replSet", set_name]
          | none => [])
      ++ (if options.config_server then ["--configsvr"] else [])
      ++ (match tls with
          | some t =>
            (if dep then
              ["--sslMode", "requireSSL", "--sslCAFile", t.ca_file_path,
               "--sslPEMKeyFile", t.server_cert_file_path]
             else
              ["--tlsMode", "requireTLS", "--tlsCAFile", t.ca_file_path,
               "--tlsCertificateKeyFile", t.server_cert_file_path])
            ++ (if t.weak_tls then
                ["--tlsAllowConnectionsWithoutCertificates"]
              else [])
          | none => [])
      ++ (if options.shard_server then ["--shardsvr"] else []) := by
  obtain ⟨port, db_path, config_server, shard_server, repl_set_name⟩ := options
  constructor <;>
  · cases db_path <;> cases credential <;> cases repl_set_name <;>
      rcases tls with _ | ⟨w, ca, cert⟩ <;> cases config_server <;>
      cases shard_server <;> cases dep <;>
      first
      | (cases w <;> simp [mongodArgs])
      | simp [mongodArgs]

/-- Closed form of repeated next_port allocation: starting below the u16
bound, the i-th allocated port is the starting counter plus i, wrapped,
and the counter afterwards is the starting counter plus the number of
calls, wrapped. -/
theorem allocPorts_eq (s : Launcher) (h : s.next_port < 65536) (n : Nat) :
    s.allocPorts n =
      ((List.range n).map fun i => (s.next_port + i) % 65536,
       { s with next_port := (s.next_port + n) % 65536 }) := by
  induction n generalizing s with
  | zero => simp [Launcher.allocPorts, Nat.mod_eq_of_lt h]
  | succ n ih =>
    have hlt : (s.next_port + 1) % 65536 < 65536 := Nat.mod_lt _ (by norm_num)
    have harith : ∀ i : Nat,
        ((s.next_port + 1) % 65536 + i) % 65536 =
          (s.next_port + (i + 1)) % 65536 := by
      intro i
      omega
    have step : s.allocPorts (n + 1) =
        (s.next_port :: (({ s with next_port := (s.next_port + 1) % 65536 } :
            Launcher).allocPorts n).1,
         (({ s with next_port := (s.next_port + 1) % 65536 } :
            Launcher).allocPorts n).2) := rfl
    rw [step, ih { s with next_port := (s.next_port + 1) % 65536 } hlt]
    rw [Prod.mk.injEq]
    refine ⟨?_, ?_⟩
    · show s.next_port ::
          (List.range n).map (fun i => ((s.next_port + 1) % 65536 + i) % 65536) = _
      rw [List.range_succ_eq_map, List.map_cons, List.map_map]
      refine congrArg₂ _ ?_ ?_
      · omega
      · refine List.map_congr_left ?_
        intro i _
        exact (harith i).trans rfl
    · show ({ s with next_port := ((s.next_port + 1) % 65536 + n) % 65536 } :
          Launcher) = _
      rw [harith n]

/-- C8 counterexample: the u16 port counter wraps, so within one launcher
lifetime allocation number 0 and allocation number 65536 both return
port 27017 - the same port is returned twice. -/
theorem nextPort_wraps_and_repeats :
    (((Launcher.new Topology.single none none false []).allocPorts
        65537).1)[0]? = some 27017 ∧
    (((Launcher.new Topology.single none none false []).allocPorts
        65537).1)[65536]? = some 27017 := by
  rw [allocPorts_eq _ (by decide)]
  refine ⟨?_, ?_⟩
  · rw [List.getElem?_map, List.getElem?_range (by norm_num : (0 : Nat) < 65537)]
    decide
  · rw [List.getElem?_map, List.getElem?_range (by norm_num : (65536 : Nat) < 65537)]
    decide

/-- C8 (amended): as long as the u16 counter does not wrap, allocated
ports strictly increase, and any two allocations fewer than 65536 calls
apart return distinct ports; the wrap at 65536 allocations (impossible
to reach with distinct ports in the 16-bit space) is the only exception. -/
theorem nextPort_monotone_below_wrap (s : Launcher) (k i j a b : Nat)
    (hs : s.next_port < 65536) (hij : i < j) (hjk : j < k)
    (ha : ((s.allocPorts k).1)[i]? = some a)
    (hb : ((s.allocPorts k).1)[j]? = some b) :
    (j - i < 65536 → a ≠ b) ∧ (s.next_port + j < 65536 → a < b) := by
  rw [allocPorts_eq s hs] at ha hb
  have hik : i < k := lt_trans hij hjk
  rw [List.getElem?_map, List.getElem?_range hik] at ha
  rw [List.getElem?_map, List.getElem?_range hjk] at hb
  simp only [Option.map_some', Option.some.injEq] at ha hb
  refine ⟨?_, ?_⟩
  · intro hwin heq
    omega
  · intro hnw
    omega

/-- Witness for the amended C8 theorem at three concrete allocations. -/
theorem nextPort_monotone_witness : (27017 : Nat) ≠ 27018 ∧ (27017 : Nat) < 27018 :=
  ⟨(nextPort_monotone_below_wrap (Launcher.new Topology.single none none false [])
      3 0 1 27017 27018 (by decide) (by norm_num) (by norm_num)
      (by decide) (by decide)).1 (by norm_num),
   (nextPort_monotone_below_wrap (Launcher.new Topology.single none none false [])
      3 0 1 27017 27018 (by decide) (by norm_num) (by norm_num)
      (by decide) (by decide)).2 (by decide)⟩

/-- Characterization of the member-spawning loop: it appends the nodes
described by memberNodesFrom to the registry, advances the port and pid
counters, and logs one spawn event per node. -/
theorem spawnReplSetMembers_eq (repl_set_name : String)
    (config_server shard_server : Bool) (db_paths : List String)
    (s : Launcher) :
    s.spawnReplSetMembers repl_set_name config_server shard_server db_paths =
      ({ s with
          nodes := s.nodes ++
            memberNodesFrom repl_set_name config_server shard_server
              s.next_port s.nextPid db_paths,
          next_port := portAfter s.next_port db_paths.length,
          nextPid := s.nextPid + db_paths.length },
       spawnEventsOf s.tls s.credential s.deprecated_tls_options
         s.extra_mongod_args
         (memberNodesFrom repl_set_name config_server shard_server
           s.next_port s.nextPid db_paths)) := by
  induction db_paths generalizing s with
  | nil => simp [Launcher.spawnReplSetMembers, memberNodesFrom, portAfter,
      spawnEventsOf]
  | cons db_path rest ih =>
    simp only [Launcher.spawnReplSetMembers, Launcher.nextPort,
      Launcher.startMongod]
    rw [ih]
    simp only [memberNodesFrom, spawnEventsOf, List.map_cons, List.length_cons,
      portAfter, List.append_assoc, List.singleton_append]
    rw [Prod.mk.injEq]
    refine ⟨?_, rfl⟩
    simp only [Launcher.mk.injEq, and_true, true_and]
    omega

/-- Characterization of the node kill-and-respawn cycle: the registry gets
the respawned nodes appended (same options, fresh pids) and the log shows
one kill and one spawn per old node. -/
theorem restartNodes_eq (old : List Node) (s : Launcher) :
    s.restartNodes old =
      ({ s with
          nodes := s.nodes ++ respawnedNodes s.nextPid old,
          nextPid := s.nextPid + old.length },
       restartNodeEvents s.tls s.credential s.deprecated_tls_options
         s.extra_mongod_args s.nextPid old) := by
  induction old generalizing s with
  | nil => simp [Launcher.restartNodes, respawnedNodes, restartNodeEvents]
  | cons nd rest ih =>
    simp only [Launcher.restartNodes, Launcher.startMongod]
    rw [ih]
    simp only [respawnedNodes, restartNodeEvents, List.length_cons,
      List.append_assoc, List.singleton_append]
    rw [Prod.mk.injEq]
    refine ⟨?_, rfl⟩
    simp only [Launcher.mk.injEq, and_true, true_and]
    omega

/-- Characterization of the router kill-and-respawn cycle. -/
theorem restartRouters_eq (old : List Router) (s : Launcher) :
    s.restartRouters old =
      ({ s with
          routers := s.routers ++ respawnedRouters s.nextPid old,
          nextPid := s.nextPid + old.length },
       restartRouterEvents s.credential s.nextPid old) := by
  induction old generalizing s with
  | nil => simp [Launcher.restartRouters, respawnedRouters, restartRouterEvents]
  | cons r rest ih =>
    simp only [Launcher.restartRouters, Launcher.startMongos]
    rw [ih]
    simp only [respawnedRouters, restartRouterEvents, List.length_cons,
      List.append_assoc, List.singleton_append]
    rw [Prod.mk.injEq]
    refine ⟨?_, rfl⟩
    simp only [Launcher.mk.injEq, and_true, true_and]
    omega

/-- Characterization of the router-spawning loop. -/
theorem spawnRouters_eq (config_db_port : Nat) (config_db_name : String)
    (ports : List Nat) (s : Launcher) :
    s.spawnRouters config_db_port config_db_name ports =
      ({ s with
          routers := s.routers ++
            routersFrom config_db_port config_db_name s.nextPid ports,
          nextPid := s.nextPid + ports.length },
       (routersFrom config_db_port config_db_name s.nextPid ports).map fun r =>
         Event.spawnRouter r.process r.options s.credential) := by
  induction ports generalizing s with
  | nil => simp [Launcher.spawnRouters, routersFrom]
  | cons port rest ih =>
    simp only [Launcher.spawnRouters, Launcher.startMongos]
    rw [ih]
    simp only [routersFrom, List.map_cons, List.length_cons,
      List.append_assoc, List.singleton_append]
    rw [Prod.mk.injEq]
    refine ⟨?_, rfl⟩
    simp only [Launcher.mk.injEq, and_true, true_and]
    omega

/-- The pids of freshly spawned member nodes are consecutive. -/
theorem memberNodesFrom_map_process (repl_set_name : String)
    (config_server shard_server : Bool) (db_paths : List String)
    (port0 pid0 : Nat) :
    (memberNodesFrom repl_set_name config_server shard_server port0 pid0
        db_paths).map (fun nd => nd.process) =
      List.range' pid0 db_paths.length := by
  induction db_paths generalizing port0 pid0 with
  | nil => rfl
  | cons d rest ih => simp [memberNodesFrom, List.range', ih]

/-- The ports of freshly spawned member nodes are consecutive from the
starting counter, wrapped at the u16 bound. -/
theorem memberNodesFrom_map_port (repl_set_name : String)
    (config_server shard_server : Bool) (db_paths : List String)
    (port0 pid0 : Nat) (h : port0 < 65536) :
    (memberNodesFrom repl_set_name config_server shard_server port0 pid0
        db_paths).map (fun nd => nd.options.port) =
      (List.range db_paths.length).map fun i => (port0 + i) % 65536 := by
  induction db_paths generalizing port0 pid0 with
  | nil => rfl
  | cons d rest ih =>
    have hlt : (port0 + 1) % 65536 < 65536 := Nat.mod_lt _ (by norm_num)
    simp only [memberNodesFrom, List.map_cons, List.length_cons,
      List.range_succ_eq_map, List.map_map, ih _ _ hlt]
    refine congrArg₂ _ ?_ ?_
    · omega
    · refine List.map_congr_left ?_
      intro i _
      show ((port0 + 1) % 65536 + i) % 65536 = (port0 + (i + 1)) % 65536
      omega

/-- Every freshly spawned member node carries the target set name. -/
theorem memberNodesFrom_set_name (repl_set_name : String)
    (config_server shard_server : Bool) (db_paths : List String)
    (port0 pid0 : Nat) :
    ∀ nd ∈ memberNodesFrom repl_set_name config_server shard_server port0
        pid0 db_paths,
      nd.options.repl_set_name = some repl_set_name := by
  induction db_paths generalizing port0 pid0 with
  | nil => intro nd hnd; cases hnd
  | cons d rest ih =>
    intro nd hnd
    rcases hnd with _ | ⟨_, hnd⟩
    · rfl
    · exact ih _ _ nd hnd

/-- The number of member nodes equals the number of data directories. -/
theorem memberNodesFrom_length (repl_set_name : String)
    (config_server shard_server : Bool) (db_paths : List String)
    (port0 pid0 : Nat) :
    (memberNodesFrom repl_set_name config_server shard_server port0 pid0
        db_paths).length = db_paths.length := by
  induction db_paths generalizing port0 pid0 with
  | nil => rfl
  | cons d rest ih => simp [memberNodesFrom, ih]

/-- Respawned nodes keep their options (port, data directory, role flags,
set name); only the process handle is fresh. -/
theorem respawnedNodes_map_options (old : List Node) (pid0 : Nat) :
    (respawnedNodes pid0 old).map (fun nd => nd.options) =
      old.map fun nd => nd.options := by
  induction old generalizing pid0 with
  | nil => rfl
  | cons nd rest ih => simp [respawnedNodes, ih]

/-- The pids of respawned nodes are consecutive from the pid counter. -/
theorem respawnedNodes_map_process (old : List Node) (pid0 : Nat) :
    (respawnedNodes pid0 old).map (fun nd => nd.process) =
      List.range' pid0 old.length := by
  induction old generalizing pid0 with
  | nil => rfl
  | cons nd rest ih => simp [respawnedNodes, List.range', ih]

/-- Respawned routers keep their options; only the process handle is fresh. -/
theorem respawnedRouters_map_options (old : List Router) (pid0 : Nat) :
    (respawnedRouters pid0 old).map (fun r => r.options) =
      old.map fun r => r.options := by
  induction old generalizing pid0 with
  | nil => rfl
  | cons r rest ih => simp [respawnedRouters, ih]

/-- The ports of the spawned routers are exactly the allocated ports. -/
theorem routersFrom_map_port (config_db_port : Nat) (config_db_name : String)
    (ports : List Nat) (pid0 : Nat) :
    (routersFrom config_db_port config_db_name pid0 ports).map
        (fun r => r.options.port) = ports := by
  induction ports generalizing pid0 with
  | nil => rfl
  | cons port rest ih => simp [routersFrom, ih]

/-- Spawn pids of a pure spawn-event block. -/
theorem spawnedPids_spawnEventsOf (tls : Option TlsOptions)
    (credential : Option Credential) (dep : Bool) (extra : List String)
    (nodes : List Node) :
    spawnedPids (spawnEventsOf tls credential dep extra nodes) =
      nodes.map fun nd => nd.process := by
  unfold spawnedPids spawnEventsOf
  rw [List.filterMap_map]
  exact List.filterMap_eq_map_iff_forall_eq_some.mpr fun nd _ => rfl

/-- A pure spawn-event block kills nothing. -/
theorem killedPids_spawnEventsOf (tls : Option TlsOptions)
    (credential : Option Credential) (dep : Bool) (extra : List String)
    (nodes : List Node) :
    killedPids (spawnEventsOf tls credential dep extra nodes) = [] := by
  unfold killedPids spawnEventsOf
  rw [List.filterMap_map]
  exact List.filterMap_eq_nil_iff.mpr fun nd _ => rfl

/-- Spawn pids of a node restart block are the fresh consecutive pids. -/
theorem spawnedPids_restartNodeEvents (tls : Option TlsOptions)
    (credential : Option Credential) (dep : Bool) (extra : List String)
    (old : List Node) (pid0 : Nat) :
    spawnedPids (restartNodeEvents tls credential dep extra pid0 old) =
      List.range' pid0 old.length := by
  induction old generalizing pid0 with
  | nil => rfl
  | cons nd rest ih =>
    simp [restartNodeEvents, spawnedPids, List.range'] at ih ⊢
    exact ih _

/-- Kill pids of a node restart block are the old pids, in order. -/
theorem killedPids_restartNodeEvents (tls : Option TlsOptions)
    (credential : Option Credential) (dep : Bool) (extra : List String)
    (old : List Node) (pid0 : Nat) :
    killedPids (restartNodeEvents tls credential dep extra pid0 old) =
      old.map fun nd => nd.process := by
  induction old generalizing pid0 with
  | nil => rfl
  | cons nd rest ih =>
    simp [restartNodeEvents, killedPids] at ih ⊢
    exact ih _

/-- Spawn pids of a router restart block are the fresh consecutive pids. -/
theorem spawnedPids_restartRouterEvents (credential : Option Credential)
    (old : List Router) (pid0 : Nat) :
    spawnedPids (restartRouterEvents credential pid0 old) =
      List.range' pid0 old.length := by
  induction old generalizing pid0 with
  | nil => rfl
  | cons r rest ih =>
    simp [restartRouterEvents, spawnedPids, List.range'] at ih ⊢
    exact ih _

/-- Kill pids of a router restart block are the old pids, in order. -/
theorem killedPids_restartRouterEvents (credential : Option Credential)
    (old : List Router) (pid0 : Nat) :
    killedPids (restartRouterEvents credential pid0 old) =
      old.map fun r => r.process := by
  induction old generalizing pid0 with
  | nil => rfl
  | cons r rest ih =>
    simp [restartRouterEvents, killedPids] at ih ⊢
    exact ih _

/-- Spawn and kill pids distribute over appended logs. -/
theorem spawnedPids_append (a b : List Event) :
    spawnedPids (a ++ b) = spawnedPids a ++ spawnedPids b :=
  List.filterMap_append a b _

/-- Kill pids distribute over appended logs. -/
theorem killedPids_append (a b : List Event) :
    killedPids (a ++ b) = killedPids a ++ killedPids b :=
  List.filterMap_append a b _

/-- Witness for the C6 theorem at a concrete config document and trace. -/
theorem replSetConfigLoop_already_initialized_witness :
    replSetConfigLoop
        { kind := ReplCmdKind.initiate,
          config := { setId := "rs2", configsvr := false,
                       members := [{ memberId := 0, host := "localhost:27017" }] } } false
        [RunResult.response { ok := 0, codeName := some "AlreadyInitialized" },
         RunResult.response { ok := 1, codeName := none }] =
      ConfigLoopOutcome.success
        { kind := ReplCmdKind.reconfig,
          config := { setId := "rs2", configsvr := false,
                       members := [{ memberId := 0, host := "localhost:27017" }] } } :=
  (replSetConfigLoop_already_initialized_reconfigs
      { setId := "rs2", configsvr := false,
        members := [{ memberId := 0, host := "localhost:27017" }] }
      { ok := 0, codeName := some "AlreadyInitialized" }
      (by decide) (by decide)).2
    { ok := 1, codeName := none } (by decide)

/-- Assembly transfers the final registry into the cluster: the nodes
field of the returned handle is the nodes field of the returned state. -/
theorem assemble_nodes (s : Launcher) (hosts : List Nat)
    (repl_set_name : Option String) (credential : Option Credential) :
    (s.assemble hosts repl_set_name credential).1.nodes =
      (s.assemble hosts repl_set_name credential).2.1.nodes := by
  cases credential <;> rfl

/-- When every registered node carries the target set name, the member
addresses are simply all registered ports in order. -/
theorem replSetAddresses_of_all_match (s : Launcher) (name : String)
    (h : ∀ nd ∈ s.nodes, nd.options.repl_set_name = some name) :
    s.replSetAddresses name = s.nodes.map fun nd => nd.options.port := by
  unfold Launcher.replSetAddresses
  exact List.filterMap_eq_map_iff_forall_eq_some.mpr fun nd hnd => by
    rw [if_pos (h nd hnd)]

/-- Characterization of the credential bootstrap: the credential is put
back, every registered node and router is respawned with a fresh pid and
unchanged options, and the log interleaves kills and spawns. -/
theorem bootstrapAuth_eq (s : Launcher) (cred : Credential) :
    s.bootstrapAuth cred =
      ({ s with
          credential := some cred,
          nodes := respawnedNodes s.nextPid s.nodes,
          routers := respawnedRouters (s.nextPid + s.nodes.length) s.routers,
          nextPid := s.nextPid + s.nodes.length + s.routers.length },
       restartNodeEvents s.tls (some cred) s.deprecated_tls_options
         s.extra_mongod_args s.nextPid s.nodes ++
       restartRouterEvents (some cred) (s.nextPid + s.nodes.length)
         s.routers) := by
  simp only [Launcher.bootstrapAuth]
  rw [restartNodes_eq, restartRouters_eq]
  rfl

/-- Respawned nodes keep their ports. -/
theorem respawnedNodes_map_port (old : List Node) (pid0 : Nat) :
    (respawnedNodes pid0 old).map (fun nd => nd.options.port) =
      old.map fun nd => nd.options.port := by
  induction old generalizing pid0 with
  | nil => rfl
  | cons nd rest ih => simp [respawnedNodes, ih]

/-- Every respawned node reuses the options of one of the old nodes. -/
theorem respawnedNodes_options_mem (old : List Node) (pid0 : Nat) :
    ∀ nd ∈ respawnedNodes pid0 old, ∃ nd0 ∈ old, nd.options = nd0.options := by
  induction old generalizing pid0 with
  | nil => intro nd hnd; cases hnd
  | cons nd0 rest ih =>
    intro nd hnd
    rcases hnd with _ | ⟨_, hnd⟩
    · exact ⟨nd0, List.mem_cons_self nd0 rest, rfl⟩
    · obtain ⟨nd1, hnd1, heq⟩ := ih _ nd hnd
      exact ⟨nd1, List.mem_cons_of_mem nd0 hnd1, heq⟩

/-- Respawned routers keep their ports. -/
theorem respawnedRouters_map_port (old : List Router) (pid0 : Nat) :
    (respawnedRouters pid0 old).map (fun r => r.options.port) =
      old.map fun r => r.options.port := by
  induction old generalizing pid0 with
  | nil => rfl
  | cons r rest ih => simp [respawnedRouters, ih]

/-- C3: on the failing input (a sharded topology with one router and one
single-directory shard, auth requested) the run returns a cluster, the
singleton-shard mongod is spawned exactly once as the only shard-server
node (pid 2), yet it is never terminated and never respawned: the restart
cycle covers only the registered nodes and routers (two kills in total),
because add_singleton_shard drops the Node it spawns instead of pushing
it onto the registry (launch.rs line 451). -/
theorem singleton_shard_left_out_of_restart :
    authShardedLauncher.initCluster.isSome = true ∧
    (authShardedEvents.filter fun e => match e with
      | Event.spawnNode _ o _ => o.shard_server
      | _ => false).length = 1 ∧
    (authShardedEvents.any fun e => match e with
      | Event.spawnNode pid o _ => pid == 2 && o.shard_server
      | _ => false) = true ∧
    (authShardedEvents.any fun e => match e with
      | Event.killNode pid => pid == 2
      | _ => false) = false ∧
    (authShardedEvents.filter fun e => match e with
      | Event.killNode _ => true
      | Event.killRouter _ => true
      | _ => false).length = 2 := by
  decide

/-- C4 counterexample: on a sharded topology with one router and one
single-directory shard (no auth), three processes are spawned and all
three are still running at the end of the run, but the returned Cluster
owns only the config-server node handle (pid 0): the router handle
(pid 1) is dropped at assembly and the singleton-shard node handle
(pid 2) was dropped at spawn time. -/
theorem cluster_drops_router_and_shard_handles :
    (match noAuthShardedLauncher.initCluster with
     | some r =>
       (livePids r.2.2 == [0, 1, 2]) &&
       (r.1.nodes.map (fun nd => nd.process) == [0])
     | none => false) = true := by
  decide

/-- Characterization of add_singleton_shard: the spawned node is dropped
(never registered), only the pid and shard counters advance, and the log
records the orphaned spawn. -/
theorem addSingletonShard_eq (s : Launcher) (port : Nat) (db_path : String) :
    s.addSingletonShard port db_path =
      ({ s with
          shard_count := (s.shard_count + 1) % 256,
          nextPid := s.nextPid + 1 },
       [Event.spawnNode s.nextPid
         { port := port, db_path := some db_path, config_server := false,
           shard_server := true, repl_set_name := none }
         (mongodArgs s.tls s.credential s.deprecated_tls_options
           s.extra_mongod_args
           { port := port, db_path := some db_path, config_server := false,
             shard_server := true, repl_set_name := none })]) := rfl

/-- The shard loop never touches the router registry, the TLS options or
the credential. -/
theorem addShards_preserves (shard_db_paths : List (List String))
    (s : Launcher) (mongos_ports : List Nat) (s2 : Launcher)
    (ev : List Event)
    (h : s.addShards mongos_ports shard_db_paths = some (s2, ev)) :
    s2.routers = s.routers ∧ s2.tls = s.tls ∧ s2.credential = s.credential ∧
    s2.deprecated_tls_options = s.deprecated_tls_options ∧
    s2.extra_mongod_args = s.extra_mongod_args := by
  revert h
  induction shard_db_paths generalizing s s2 ev with
  | nil =>
    intro h
    simp only [Launcher.addShards] at h
    rw [Option.some.injEq, Prod.mk.injEq] at h
    obtain ⟨h1, _⟩ := h
    rw [← h1]
    exact ⟨rfl, rfl, rfl, rfl, rfl⟩
  | cons set rest ih =>
    intro h
    simp only [Launcher.addShards] at h
    split at h
    · exact absurd h (by simp)
    split at h
    · exact absurd h (by simp)
    rename_i smid evmid hstep
    split at h
    · exact absurd h (by simp)
    rename_i s3 ev2 hrec
    rw [Option.some.injEq, Prod.mk.injEq] at h
    obtain ⟨h2, _⟩ := h
    rw [← h2]
    have hrest := ih smid s3 ev2 hrec
    split at hstep
    · rw [addSingletonShard_eq, Option.some.injEq, Prod.mk.injEq] at hstep
      obtain ⟨hm, _⟩ := hstep
      rw [← hm] at hrest
      exact hrest
    · simp only [Launcher.addReplsetShard, Launcher.startReplSet,
        Launcher.nextShardId] at hstep
      rw [spawnReplSetMembers_eq] at hstep
      split at hstep
      · exact absurd hstep (by simp)
      rw [Option.some.injEq, Prod.mk.injEq] at hstep
      obtain ⟨hm, _⟩ := hstep
      rw [← hm] at hrest
      exact hrest

/-- Below the u16 bound the port counter advances without wrapping. -/
theorem portAfter_no_wrap (p0 n : Nat) (h : p0 + n < 65536) :
    portAfter p0 n = p0 + n := by
  induction n generalizing p0 with
  | zero => rfl
  | succ n ih =>
    show portAfter ((p0 + 1) % 65536) n = _
    rw [Nat.mod_eq_of_lt (by omega), ih _ (by omega)]
    omega

/-- Below the u16 bound, every freshly spawned member node gets a port at
or above the starting counter. -/
theorem memberNodesFrom_port_lb (repl_set_name : String)
    (config_server shard_server : Bool) (db_paths : List String)
    (port0 pid0 : Nat) (h0 : port0 < 65536)
    (h : port0 + db_paths.length ≤ 65536) :
    ∀ nd ∈ memberNodesFrom repl_set_name config_server shard_server port0
        pid0 db_paths,
      port0 ≤ nd.options.port := by
  intro nd hnd
  have hmem : nd.options.port ∈
      (memberNodesFrom repl_set_name config_server shard_server port0 pid0
        db_paths).map fun nd => nd.options.port :=
    List.mem_map_of_mem _ hnd
  rw [memberNodesFrom_map_port _ _ _ _ _ _ h0, List.mem_map] at hmem
  obtain ⟨i, hi, hport⟩ := hmem
  rw [List.mem_range] at hi
  omega

/-- Below the u16 bound, the shard loop allocates exactly one port per
data directory, and every node it appends to the registry has a port at
or above the counter at entry; the router registry is untouched (see
addShards_preserves). -/
theorem addShards_ports (shard_db_paths : List (List String)) (s : Launcher)
    (mongos_ports : List Nat) (s2 : Launcher) (ev : List Event)
    (hw : s.next_port + shardPortCount shard_db_paths ≤ 65535)
    (h : s.addShards mongos_ports shard_db_paths = some (s2, ev)) :
    s2.next_port = s.next_port + shardPortCount shard_db_paths ∧
    ∀ nd ∈ s2.nodes, nd ∈ s.nodes ∨ s.next_port ≤ nd.options.port := by
  revert hw h
  induction shard_db_paths generalizing s s2 ev with
  | nil =>
    intro hw h
    simp only [Launcher.addShards] at h
    rw [Option.some.injEq, Prod.mk.injEq] at h
    obtain ⟨h1, _⟩ := h
    rw [← h1]
    exact ⟨by simp [shardPortCount], fun nd hnd => Or.inl hnd⟩
  | cons set rest ih =>
    intro hw h
    have hcount : shardPortCount (set :: rest) =
        set.length + shardPortCount rest := by
      simp [shardPortCount]
    rw [hcount] at hw
    simp only [Launcher.addShards] at h
    split at h
    · exact absurd h (by simp)
    split at h
    · exact absurd h (by simp)
    rename_i smid evmid hstep
    split at h
    · exact absurd h (by simp)
    rename_i s3 ev2 hrec
    rw [Option.some.injEq, Prod.mk.injEq] at h
    obtain ⟨h2, _⟩ := h
    rw [← h2]
    split at hstep
    · rename_i hlen
      rw [addSingletonShard_eq, Option.some.injEq, Prod.mk.injEq] at hstep
      obtain ⟨hm, _⟩ := hstep
      have hnp : smid.next_port = s.next_port + 1 := by
        rw [← hm]
        show (s.next_port + 1) % 65536 = s.next_port + 1
        omega
      have hnodes : smid.nodes = s.nodes := by rw [← hm]; rfl
      obtain ⟨hr1, hr2⟩ := ih smid s3 ev2 (by rw [hnp]; omega) hrec
      constructor
      · rw [hr1, hcount, hnp, hlen]
        omega
      · intro nd hnd
        rcases hr2 nd hnd with hin | hge
        · rw [hnodes] at hin
          exact Or.inl hin
        · rw [hnp] at hge
          exact Or.inr (by omega)
    · rename_i hlen
      simp only [Launcher.addReplsetShard, Launcher.startReplSet,
        Launcher.nextShardId] at hstep
      rw [spawnReplSetMembers_eq] at hstep
      split at hstep
      · exact absurd hstep (by simp)
      rw [Option.some.injEq, Prod.mk.injEq] at hstep
      obtain ⟨hm, _⟩ := hstep
      have hp0 : s.next_port < 65536 := by omega
      have hnp : smid.next_port = s.next_port + set.length := by
        rw [← hm]
        show portAfter s.next_port set.length = _
        exact portAfter_no_wrap _ _ (by omega)
      have hnodes : smid.nodes = s.nodes ++
          memberNodesFrom ("phil-replset-shard-" ++ toString s.shard_count)
            false true s.next_port s.nextPid set := by
        rw [← hm]
      obtain ⟨hr1, hr2⟩ := ih smid s3 ev2 (by rw [hnp]; omega) hrec
      constructor
      · rw [hr1, hcount, hnp]
        omega
      · intro nd hnd
        rcases hr2 nd hnd with hin | hge
        · rw [hnodes] at hin
          rcases List.mem_append.mp hin with hl | hr
          · exact Or.inl hl
          · exact Or.inr (memberNodesFrom_port_lb _ _ _ _ _ _ hp0
              (by omega) nd hr)
        · rw [hnp] at hge
          exact Or.inr (by omega)

/-- C4 (amended): the returned Cluster owns exactly the launcher final
node registry; for the Single and ReplicaSet topologies that registry is
every process spawned during the run and not terminated by the restart
cycle, so nothing is dropped there; the sharded counterexample (router
handles dropped at assembly, singleton-shard node handles dropped at
spawn) is the only exception. -/
theorem cluster_owns_registry_nodes :
    (∀ (s0 : Launcher) (c : Cluster) (sF : Launcher) (ev : List Event),
      s0.initCluster = some (c, sF, ev) → c.nodes = sF.nodes) ∧
    (∀ (tls : Option TlsOptions) (credential : Option Credential)
        (dep : Bool) (extra : List String) (c : Cluster) (sF : Launcher)
        (ev : List Event),
      (Launcher.new Topology.single tls credential dep extra).initCluster =
          some (c, sF, ev) →
        livePids ev = c.nodes.map fun nd => nd.process) ∧
    (∀ (set_name : String) (db_paths : List String) (tls : Option TlsOptions)
        (credential : Option Credential) (dep : Bool) (extra : List String)
        (c : Cluster) (sF : Launcher) (ev : List Event),
      (Launcher.new (Topology.replicaSet set_name db_paths) tls credential
          dep extra).initCluster = some (c, sF, ev) →
        livePids ev = c.nodes.map fun nd => nd.process) := by
  refine ⟨?_, ?_, ?_⟩
  · intro s0 c sF ev h
    simp only [Launcher.initCluster] at h
    split at h
    · rw [Option.some.injEq, Prod.mk.injEq, Prod.mk.injEq] at h
      obtain ⟨hc, hsF, _⟩ := h
      rw [← hc, ← hsF]
      exact assemble_nodes ..
    · split at h
      · exact absurd h (by simp)
      · rw [Option.some.injEq, Prod.mk.injEq, Prod.mk.injEq] at h
        obtain ⟨hc, hsF, _⟩ := h
        rw [← hc, ← hsF]
        exact assemble_nodes ..
    · split at h
      · exact absurd h (by simp)
      · split at h
        · exact absurd h (by simp)
        · rw [Option.some.injEq, Prod.mk.injEq, Prod.mk.injEq] at h
          obtain ⟨hc, hsF, _⟩ := h
          rw [← hc, ← hsF]
          exact assemble_nodes ..
  · intro tls credential dep extra c sF ev h
    cases credential with
    | none =>
      simp only [Launcher.new, Launcher.initCluster, Launcher.startMongod,
        Launcher.assemble] at h
      rw [Option.some.injEq, Prod.mk.injEq, Prod.mk.injEq] at h
      obtain ⟨hc, _, hev⟩ := h
      rw [← hc, ← hev]
      simp [livePids, spawnedPids, killedPids]
    | some cr =>
      simp only [Launcher.new, Launcher.initCluster, Launcher.startMongod,
        Launcher.assemble, Launcher.bootstrapAuth, Launcher.restartNodes,
        Launcher.restartRouters, Launcher.startMongos] at h
      rw [Option.some.injEq, Prod.mk.injEq, Prod.mk.injEq] at h
      obtain ⟨hc, _, hev⟩ := h
      rw [← hc, ← hev]
      simp [livePids, spawnedPids, killedPids]
  · intro set_name db_paths tls credential dep extra c sF ev h
    simp only [Launcher.new, Launcher.initCluster, Launcher.startReplSet] at h
    rw [spawnReplSetMembers_eq] at h
    dsimp only at h
    simp only [List.nil_append, Nat.zero_add] at h
    split at h
    · exact absurd h (by simp)
    · rename_i s1 ev1 heq
      split at heq
      · exact absurd heq (by simp)
      rw [Option.some.injEq, Prod.mk.injEq] at heq
      obtain ⟨hs1, hev1⟩ := heq
      subst hs1
      subst hev1
      rw [Option.some.injEq, Prod.mk.injEq, Prod.mk.injEq] at h
      obtain ⟨hc, _, hev⟩ := h
      cases credential with
      | none =>
        simp only [Launcher.assemble] at hc hev
        subst hc
        subst hev
        unfold livePids
        rw [List.append_nil, killedPids_spawnEventsOf,
          spawnedPids_spawnEventsOf]
        rw [List.filter_eq_self]
        intro p _
        simp
      | some cr =>
        simp only [Launcher.assemble] at hc hev
        rw [bootstrapAuth_eq] at hc hev
        dsimp only at hc hev
        subst hc
        subst hev
        unfold livePids
        rw [spawnedPids_append, killedPids_append, spawnedPids_append,
          killedPids_append, killedPids_spawnEventsOf,
          spawnedPids_spawnEventsOf, spawnedPids_restartNodeEvents,
          killedPids_restartNodeEvents, spawnedPids_restartRouterEvents,
          killedPids_restartRouterEvents]
        dsimp only
        simp only [List.append_nil, List.nil_append, List.length_nil,
          List.range'_zero, List.map_nil, memberNodesFrom_length,
          memberNodesFrom_map_process]
        rw [List.filter_append]
        have h1 : (List.range' (0 : Nat) db_paths.length).filter
            (fun pid => pid ∉ List.range' (0 : Nat) db_paths.length) = [] := by
          rw [List.filter_eq_nil_iff]
          intro p hp
          simp [hp]
        have h2 : (List.range' db_paths.length db_paths.length).filter
            (fun pid => pid ∉ List.range' (0 : Nat) db_paths.length) =
            List.range' db_paths.length db_paths.length := by
          rw [List.filter_eq_self]
          intro p hp
          rw [List.mem_range'_1] at hp
          simp only [decide_eq_true_eq, List.mem_range'_1]
          omega
        rw [h1, h2, List.nil_append, respawnedNodes_map_process,
          memberNodesFrom_length]

/-- C5: the connection-parameter host list of the returned Cluster is
exactly the single node's address for Single; the addresses of all
replica-set members (the registry filtered on the set name, which is the
whole registry) for ReplicaSet; and the addresses of all routers for
Sharded, never a data-node address (the data-node-disjointness holding
whenever the run stays below the u16 port-space bound, where ports are
not reused). -/
theorem cluster_hosts_match_topology :
    (∀ (tls : Option TlsOptions) (credential : Option Credential) (dep : Bool)
        (extra : List String) (c : Cluster) (sF : Launcher) (ev : List Event),
      (Launcher.new Topology.single tls credential dep extra).initCluster =
          some (c, sF, ev) →
        c.client_options.hosts = [27017] ∧
        c.nodes.map (fun nd => nd.options.port) = [27017]) ∧
    (∀ (set_name : String) (db_paths : List String) (tls : Option TlsOptions)
        (credential : Option Credential) (dep : Bool) (extra : List String)
        (c : Cluster) (sF : Launcher) (ev : List Event),
      (Launcher.new (Topology.replicaSet set_name db_paths) tls credential
          dep extra).initCluster = some (c, sF, ev) →
        c.client_options.hosts = sF.replSetAddresses set_name ∧
        sF.replSetAddresses set_name =
          sF.nodes.map fun nd => nd.options.port) ∧
    (∀ (num_mongos : Nat) (shard_db_paths : List (List String))
        (config_db_path : String) (tls : Option TlsOptions)
        (credential : Option Credential) (dep : Bool) (extra : List String)
        (c : Cluster) (sF : Launcher) (ev : List Event),
      (Launcher.new (Topology.sharded num_mongos shard_db_paths
          config_db_path) tls credential dep extra).initCluster =
          some (c, sF, ev) →
        c.client_options.hosts = sF.routers.map (fun r => r.options.port) ∧
        (27018 + num_mongos + shardPortCount shard_db_paths ≤ 65535 →
          ∀ p ∈ c.client_options.hosts,
            p ∉ sF.nodes.map fun nd => nd.options.port)) := by
  refine ⟨?_, ?_, ?_⟩
  · intro tls credential dep extra c sF ev h
    cases credential with
    | none =>
      simp only [Launcher.new, Launcher.initCluster, Launcher.startMongod,
        Launcher.assemble] at h
      rw [Option.some.injEq, Prod.mk.injEq, Prod.mk.injEq] at h
      obtain ⟨hc, _, _⟩ := h
      subst hc
      exact ⟨rfl, rfl⟩
    | some cr =>
      simp only [Launcher.new, Launcher.initCluster, Launcher.startMongod,
        Launcher.assemble, Launcher.bootstrapAuth, Launcher.restartNodes,
        Launcher.restartRouters, Launcher.startMongos] at h
      rw [Option.some.injEq, Prod.mk.injEq, Prod.mk.injEq] at h
      obtain ⟨hc, _, _⟩ := h
      subst hc
      exact ⟨rfl, rfl⟩
  · intro set_name db_paths tls credential dep extra c sF ev h
    simp only [Launcher.new, Launcher.initCluster, Launcher.startReplSet] at h
    rw [spawnReplSetMembers_eq] at h
    dsimp only at h
    simp only [List.nil_append, Nat.zero_add] at h
    split at h
    · exact absurd h (by simp)
    · rename_i s1 ev1 heq
      split at heq
      · exact absurd heq (by simp)
      rw [Option.some.injEq, Prod.mk.injEq] at heq
      obtain ⟨hs1, hev1⟩ := heq
      subst hs1
      subst hev1
      rw [Option.some.injEq, Prod.mk.injEq, Prod.mk.injEq] at h
      obtain ⟨hc, hsF, _⟩ := h
      have hall : ∀ nd ∈ memberNodesFrom set_name false false 27017 0 db_paths,
          nd.options.repl_set_name = some set_name :=
        memberNodesFrom_set_name _ _ _ _ _ _
      cases credential with
      | none =>
        simp only [Launcher.assemble] at hc hsF
        subst hc
        subst hsF
        refine ⟨?_, ?_⟩
        · rw [replSetAddresses_of_all_match _ _ hall]
          dsimp only
          rw [memberNodesFrom_map_port _ _ _ _ _ _ (by norm_num)]
          refine List.map_congr_left ?_
          intro i _
          omega
        · rw [replSetAddresses_of_all_match _ _ hall]
      | some cr =>
        simp only [Launcher.assemble] at hc hsF
        rw [bootstrapAuth_eq] at hc hsF
        dsimp only at hc hsF
        subst hc
        subst hsF
        have hall2 : ∀ nd ∈ respawnedNodes db_paths.length
            (memberNodesFrom set_name false false 27017 0 db_paths),
            nd.options.repl_set_name = some set_name := by
          intro nd hnd
          obtain ⟨nd0, h0, heq0⟩ := respawnedNodes_options_mem _ _ nd hnd
          rw [heq0]
          exact hall nd0 h0
        refine ⟨?_, ?_⟩
        · rw [replSetAddresses_of_all_match _ _ hall2]
          dsimp only
          rw [respawnedNodes_map_port,
            memberNodesFrom_map_port _ _ _ _ _ _ (by norm_num)]
          refine List.map_congr_left ?_
          intro i _
          omega
        · rw [replSetAddresses_of_all_match _ _ hall2]
  · intro num_mongos shard_db_paths config_db_path tls credential dep extra
      c sF ev h
    simp only [Launcher.new, Launcher.initCluster, Launcher.addConfigDB,
      Launcher.startMongod] at h
    rw [allocPorts_eq _ (by show (27017 : Nat) < 65536; norm_num)] at h
    dsimp only [Launcher.nextPort] at h
    split at h
    · exact absurd h (by simp)
    · rename_i s3 ev1 heq
      split at heq
      · exact absurd heq (by simp)
      rw [Option.some.injEq, Prod.mk.injEq] at heq
      obtain ⟨hs3, hev1⟩ := heq
      subst hs3
      subst hev1
      rw [spawnRouters_eq] at h
      dsimp only at h
      split at h
      · exact absurd h (by simp)
      · rename_i s5 ev3 heq2
        rw [Option.some.injEq, Prod.mk.injEq, Prod.mk.injEq] at h
        obtain ⟨hc, hsF, _⟩ := h
        obtain ⟨hrouters, _, _, _, _⟩ :=
          addShards_preserves _ _ _ _ _ heq2
        dsimp only at hrouters
        cases credential with
        | none =>
          simp only [Launcher.assemble] at hc hsF
          subst hc
          subst hsF
          refine ⟨?_, ?_⟩
          · rw [hrouters, List.nil_append, routersFrom_map_port]
          · intro hbound p hp hmem
            obtain ⟨hnp, hnodes⟩ := addShards_ports _ _ _ _ _
              (by dsimp only; omega) heq2
            dsimp only at hnp hnodes
            rw [List.mem_map] at hp
            obtain ⟨i, hi, hpi⟩ := hp
            rw [List.mem_range] at hi
            rw [List.mem_map] at hmem
            obtain ⟨nd, hnd, hport⟩ := hmem
            rcases hnodes nd hnd with hin | hge
            · rcases hin with _ | ⟨_, hin⟩
              · dsimp only at hport
                omega
              · exact absurd hin (List.not_mem_nil nd)
            · omega
        | some cr =>
          simp only [Launcher.assemble] at hc hsF
          rw [bootstrapAuth_eq] at hc hsF
          dsimp only at hc hsF
          subst hc
          subst hsF
          refine ⟨?_, ?_⟩
          · rw [respawnedRouters_map_port, hrouters, List.nil_append,
              routersFrom_map_port]
          · intro hbound p hp hmem
            obtain ⟨hnp, hnodes⟩ := addShards_ports _ _ _ _ _
              (by dsimp only; omega) heq2
            dsimp only at hnp hnodes
            rw [List.mem_map] at hp
            obtain ⟨i, hi, hpi⟩ := hp
            rw [List.mem_range] at hi
            rw [respawnedNodes_map_port, List.mem_map] at hmem
            obtain ⟨nd, hnd, hport⟩ := hmem
            rcases hnodes nd hnd with hin | hge
            · rcases hin with _ | ⟨_, hin⟩
              · dsimp only at hport
                omega
              · exact absurd hin (List.not_mem_nil nd)
            · omega

/-- Witness for the amended C4 theorem: the single-server run spawns one
process and the returned handle owns exactly that process. -/
theorem cluster_owns_registry_witness :
    livePids [Event.spawnNode 0
      { port := 27017, db_path := none, config_server := false,
        shard_server := false, repl_set_name := none }
      ["--port", "27017"]] =
    (Cluster.nodes
      { client_options :=
          { hosts := [27017], repl_set_name := none, credential := none,
            tls := none },
        topology := Topology.single, tls := none, auth := none,
        nodes := [{ process := 0,
                    options := { port := 27017, db_path := none,
                                 config_server := false,
                                 shard_server := false,
                                 repl_set_name := none } }] }).map
      fun nd => nd.process :=
  cluster_owns_registry_nodes.2.1 none none false []
    { client_options :=
        { hosts := [27017], repl_set_name := none, credential := none,
          tls := none },
      topology := Topology.single, tls := none, auth := none,
      nodes := [{ process := 0,
                  options := { port := 27017, db_path := none,
                               config_server := false,
                               shard_server := false,
                               repl_set_name := none } }] }
    { topology := Topology.single, tls := none, credential := none,
      nodes := [{ process := 0,
                  options := { port := 27017, db_path := none,
                               config_server := false,
                               shard_server := false,
                               repl_set_name := none } }],
      routers := [], next_port := 27017, shard_count := 0,
      deprecated_tls_options := false, extra_mongod_args := [], nextPid := 1 }
    [Event.spawnNode 0
      { port := 27017, db_path := none, config_server := false,
        shard_server := false, repl_set_name := none }
      ["--port", "27017"]]
    (by decide)

/-- Witness for the C5 theorem: the single-server run yields the host
list with exactly the single node's port. -/
theorem cluster_hosts_witness :
    (Cluster.client_options
      { client_options :=
          { hosts := [27017], repl_set_name := none, credential := none,
            tls := none },
        topology := Topology.single, tls := none, auth := none,
        nodes := [{ process := 0,
                    options := { port := 27017, db_path := none,
                                 config_server := false,
                                 shard_server := false,
                                 repl_set_name := none } }] }).hosts =
      [27017] ∧
    (Cluster.nodes
      { client_options :=
          { hosts := [27017], repl_set_name := none, credential := none,
            tls := none },
        topology := Topology.single, tls := none, auth := none,
        nodes := [{ process := 0,
                    options := { port := 27017, db_path := none,
                                 config_server := false,
                                 shard_server := false,
                                 repl_set_name := none } }] }).map
      (fun nd => nd.options.port) = [27017] :=
  cluster_hosts_match_topology.1 none none false []
    { client_options :=
        { hosts := [27017], repl_set_name := none, credential := none,
          tls := none },
      topology := Topology.single, tls := none, auth := none,
      nodes := [{ process := 0,
                  options := { port := 27017, db_path := none,
                               config_server := false,
                               shard_server := false,
                               repl_set_name := none } }] }
    { topology := Topology.single, tls := none, credential := none,
      nodes := [{ process := 0,
                  options := { port := 27017, db_path := none,
                               config_server := false,
                               shard_server := false,
                               repl_set_name := none } }],
      routers := [], next_port := 27017, shard_count := 0,
      deprecated_tls_options := false, extra_mongod_args := [], nextPid := 1 }
    [Event.spawnNode 0
      { port := 27017, db_path := none, config_server := false,
        shard_server := false, repl_set_name := none }
      ["--port", "27017"]]
    (by decide)

end Phil
